import Mathlib

/-!
Shallow embedding of the mywhoosh-to-garmin sync tool and proofs about it.

The embedding follows the Python sources:
  services/garmin_service.py      (GarminService namespace)
  services/mywhoosh_service.py    (MyWhooshService namespace)
  services/activity_processor.py  (ActivityProcessor namespace)
External effects (HTTP responses, filesystem contents, library date parsing)
are passed in explicitly as environment values; fallible steps are Except
values; control flow, branch conditions and state updates are translated
from the source line by line.
-/

/-- Membership test of one character list as a leading segment of another,
matching Python string startswith semantics used below to build the
substring test of the in operator. -/
def charsPre : List Char → List Char → Bool
  | [], _ => true
  | _ :: _, [] => false
  | a :: as, b :: bs => a == b && charsPre as bs

/-- Python substring containment (the in operator on str): needle occurs
contiguously somewhere in hay. -/
def charsSub (needle : List Char) : List Char → Bool
  | [] => needle.isEmpty
  | b :: bs => charsPre needle (b :: bs) || charsSub needle bs

/-- Python needle in hay on strings. -/
def strIn (needle hay : String) : Bool := charsSub needle.toList hay.toList

/-- Python str.lower (ASCII lowering, which covers all inputs that occur in
the program). -/
def toLowerStr (s : String) : String := ⟨s.toList.map Char.toLower⟩

/-- True exactly on Except.ok values. -/
def isOkE {ε α : Type} : Except ε α → Bool
  | .ok _ => true
  | .error _ => false

/-- True exactly on Except.error values. -/
def isErrE {ε α : Type} : Except ε α → Bool
  | .ok _ => false
  | .error _ => true

/-- Python abs on rationals, written as an executable conditional. -/
def pyAbs (q : ℚ) : ℚ := if q < 0 then -q else q

namespace GarminService

/-- Outcome of retrieving and parsing the start time of one remote activity
in check_duplicate_activity (garmin_service.py lines 137-143): the
startTimeLocal/startTime field may be absent or falsy (the loop continues),
the datetime.fromisoformat parse may raise (caught by the inner handler,
loop continues), or it yields a start instant, modelled in Unix seconds. -/
inductive StartField where
  | missing : StartField
  | malformed : StartField
  | parsed : Int → StartField
deriving DecidableEq

/-- One activity returned by the remote by-date listing, with the fields
check_duplicate_activity reads. -/
structure GarminActivity where
  start : StartField
  activityName : Option String
deriving DecidableEq

/-- Python truthiness of the optional activity_name argument: None and the
empty string are falsy (garmin_service.py line 155). -/
def pyTruthyName : Option String → Option String
  | none => none
  | some s => if s = "" then none else some s

/-- The candidate scan of check_duplicate_activity (garmin_service.py lines
134-172): for each candidate, skip it when the start time is missing or its
parse raised; otherwise compare the absolute time difference in hours with
threshold_hours; on a time match return True at once when no name was
supplied, and when a name was supplied return True exactly when one lowered
name contains the other, continuing with the next candidate otherwise. -/
def check_duplicate_candidates (activity_date : Int) (activity_name : Option String)
    (threshold_hours : Int) : List GarminActivity → Bool
  | [] => false
  | a :: rest =>
    match a.start with
    | .missing => check_duplicate_candidates activity_date activity_name threshold_hours rest
    | .malformed => check_duplicate_candidates activity_date activity_name threshold_hours rest
    | .parsed s =>
      if pyAbs (((s - activity_date : Int) : ℚ) / 3600) ≤ (threshold_hours : ℚ) then
        match pyTruthyName activity_name with
        | some n =>
          let garmin_name := toLowerStr (a.activityName.getD "")
          if strIn (toLowerStr n) garmin_name || strIn garmin_name (toLowerStr n) then
            true
          else
            check_duplicate_candidates activity_date activity_name threshold_hours rest
        | none => true
      else
        check_duplicate_candidates activity_date activity_name threshold_hours rest

/-- Executable form of the candidate scan: the same branching as
check_duplicate_candidates with the time window condition multiplied out
over the integers, so that concrete runs reduce inside the kernel. The
lemma check_duplicate_candidates_eq_c proves both scans agree. -/
def check_duplicate_candidates_c (activity_date : Int) (activity_name : Option String)
    (threshold_hours : Int) : List GarminActivity → Bool
  | [] => false
  | a :: rest =>
    match a.start with
    | .missing => check_duplicate_candidates_c activity_date activity_name threshold_hours rest
    | .malformed => check_duplicate_candidates_c activity_date activity_name threshold_hours rest
    | .parsed s =>
      if -(3600 * threshold_hours) ≤ s - activity_date ∧ s - activity_date ≤ 3600 * threshold_hours then
        match pyTruthyName activity_name with
        | some n =>
          let garmin_name := toLowerStr (a.activityName.getD "")
          if strIn (toLowerStr n) garmin_name || strIn garmin_name (toLowerStr n) then
            true
          else
            check_duplicate_candidates_c activity_date activity_name threshold_hours rest
        | none => true
      else
        check_duplicate_candidates_c activity_date activity_name threshold_hours rest

/-- Result of one call to check_duplicate_activity: the returned value or
raised error, plus whether the remote by-date query was reached. -/
structure DupCheckRun where
  result : Except String Bool
  queriedRemote : Bool

/-- check_duplicate_activity (garmin_service.py lines 92-177): raises when
not authenticated, before any remote work; otherwise queries the remote
listing for the calendar date (its outcome is the listing argument), maps a
listing failure to False through the outer handler, and otherwise scans the
candidates. -/
def check_duplicate_activity (authenticated : Bool) (activity_date : Int)
    (activity_name : Option String) (threshold_hours : Int)
    (listing : Except String (List GarminActivity)) : DupCheckRun :=
  if authenticated = false then
    { result := .error "Must authenticate before checking activities", queriedRemote := false }
  else
    match listing with
    | .error _ => { result := .ok false, queriedRemote := true }
    | .ok activities =>
        { result := .ok (check_duplicate_candidates activity_date activity_name
            threshold_hours activities),
          queriedRemote := true }

end GarminService

namespace MyWhooshService

/-- Request payload for the activities listing endpoint
(mywhoosh_service.py lines 106-109). -/
structure MWPayload where
  page : Nat
  limit : Nat
  sortDate : String
deriving DecidableEq

/-- The ordered payload strategies tried by get_activities
(mywhoosh_service.py lines 106-109). -/
def payloads_to_try (limit : Nat) : List MWPayload :=
  [{ page := 1, limit := limit, sortDate := "DESC" },
   { page := 1, limit := limit, sortDate := "ASC" }]

/-- Response body envelope shapes handled by get_activities
(mywhoosh_service.py lines 129-146): a bare JSON list, a dict whose data
key holds a dict with results, a dict whose data key holds a list, a dict
probed at the activities/results/rides/rideHistory keys, or anything
else. -/
inductive MWBody (α : Type) where
  | flatList (activities : List α)
  | dataDict (results : Option (List α))
  | dataList (activities : List α)
  | dictKeys (activities results rides rideHistory : Option (List α))
  | other

/-- Python or-chain over optional lists: the first value that is truthy
(present and nonempty) wins, else the final default of an empty list
(mywhoosh_service.py lines 138-144). -/
def firstTruthyList {α : Type} : List (Option (List α)) → List α
  | [] => []
  | some (a :: as) :: _ => a :: as
  | some [] :: rest => firstTruthyList rest
  | none :: rest => firstTruthyList rest

/-- Envelope normalization of get_activities (mywhoosh_service.py lines
129-146). -/
def extract_activities {α : Type} : MWBody α → List α
  | .flatList l => l
  | .dataDict r => r.getD []
  | .dataList l => l
  | .dictKeys a r ri rh => firstTruthyList [a, r, ri, rh]
  | .other => []

/-- One HTTP outcome for a listing request: 200 with a body, 401, another
status, or a network error raised by requests. -/
inductive MWResponse (α : Type) where
  | ok (body : MWBody α)
  | unauthorized
  | httpError (code : Nat) (text : String)
  | netError (msg : String)

/-- Environment of one get_activities call: what the remote returns for a
given payload under a given bearer token, and the outcome of the n-th
re-authentication attempt (a fresh token, or the error authenticate
raises). -/
structure MWEnv (α : Type) where
  respond : MWPayload → Nat → MWResponse α
  authResult : Nat → Except String Nat

/-- Observable events of one get_activities call, in order: requests sent
(with the token they carried) and re-authentication attempts. -/
inductive MWEvent where
  | request (payload : MWPayload) (token : Nat)
  | reauth (ok : Bool)
deriving DecidableEq

/-- True exactly on re-authentication events. -/
def isReauthEvent : MWEvent → Bool
  | .reauth _ => true
  | .request _ _ => false

/-- Result and event trace of one get_activities call. -/
structure MWRun (α : Type) where
  result : Except String (List α)
  events : List MWEvent

/-- The strategy loop of get_activities (mywhoosh_service.py lines
111-175): for each payload in order, send the request with the current
token; on 200 extract and return the activities; on 401 re-authenticate
(an authenticate failure is caught by the generic handler, recording it as
last_error) and continue with the next payload; on another status or a
network error record last_error and continue; when the strategies are
exhausted raise with the last error. -/
def get_activities_loop {α : Type} (env : MWEnv α) :
    List MWPayload → Nat → Nat → List MWEvent → Option String → MWRun α
  | [], _, _, events, lastError =>
      { result := .error ("Could not fetch activities. Last error: " ++ lastError.getD "None"),
        events := events }
  | p :: rest, token, authCount, events, lastError =>
      match env.respond p token with
      | .ok body =>
          { result := .ok (extract_activities body), events := events ++ [.request p token] }
      | .unauthorized =>
          match env.authResult authCount with
          | .ok newTok =>
              get_activities_loop env rest newTok (authCount + 1)
                (events ++ [.request p token, .reauth true]) lastError
          | .error e =>
              get_activities_loop env rest token (authCount + 1)
                (events ++ [.request p token, .reauth false]) (some e)
      | .httpError code text =>
          get_activities_loop env rest token authCount (events ++ [.request p token])
            (some ("HTTP " ++ toString code ++ ": " ++ text))
      | .netError msg =>
          get_activities_loop env rest token authCount (events ++ [.request p token]) (some msg)

/-- get_activities (mywhoosh_service.py lines 81-175), starting from the
current bearer token with no error recorded. -/
def get_activities {α : Type} (env : MWEnv α) (limit : Nat) (token0 : Nat) : MWRun α :=
  get_activities_loop env (payloads_to_try limit) token0 0 [] none

/-- The FIT magic bytes compared at offset 8-11 of the downloaded header,
the bytes of ".FIT" (mywhoosh_service.py line 290). -/
def fitMagic : List Nat := [46, 70, 73, 84]

/-- Outcome of the header verification stage of download_activity: the
path returned to the caller and whether a header warning was logged. -/
structure DownloadFinalize where
  path : String
  headerWarning : Bool
deriving DecidableEq

/-- Header verification stage of download_activity (mywhoosh_service.py
lines 284-300): read up to 14 header bytes of the saved file; when at
least 12 were read compare bytes 8-11 with the FIT magic, logging a
warning on mismatch; when fewer were read log a too-small warning; in
every case return the file path. -/
def finalize_download (content : List Nat) (path : String) : DownloadFinalize :=
  let header := content.take 14
  if header.length ≥ 12 then
    if (header.drop 8).take 4 = fitMagic then
      { path := path, headerWarning := false }
    else
      { path := path, headerWarning := true }
  else
    { path := path, headerWarning := true }

end MyWhooshService

namespace ActivityProcessor

/-- Numeric branch of _parse_activity_date (activity_processor.py lines
162-169): a numeric raw timestamp above 100 billion is taken to be in
milliseconds and divided by 1000, otherwise it is kept as seconds. -/
def parse_activity_date_numeric (timestamp : ℚ) : ℚ :=
  if timestamp > 100000000000 then timestamp / 1000 else timestamp

/-- One source activity as the orchestrator sees it: the display name and
the result of _parse_activity_date on the probed date field (the string
parsing itself is external library work; only whether it produced an
instant steers the orchestrator). -/
structure SourceActivity where
  name : String
  parsedDate : Option ℚ

/-- get_latest_activity (mywhoosh_service.py lines 177-203): None on an
empty listing, else the first listed activity. -/
def get_latest_activity (activities : List SourceActivity) : Option SourceActivity :=
  match activities with
  | [] => none
  | a :: _ => some a

/-- Environment of one single-activity pass: outcome of each external step.
garminAuth is the outcome of garmin_service.authenticate when invoked (at
most one invocation can occur in a pass); duplicateFound is the boolean
returned by check_duplicate_activity, which cannot raise once
authenticated. -/
structure SingleEnv where
  mywhooshAuth : Except String Unit
  latestActivity : Except String (Option SourceActivity)
  garminAuthenticated : Bool
  garminAuth : Except String Unit
  duplicateFound : Bool
  download : Except String String
  modify_device_info : Except String String
  upload : Except String Unit

/-- Observable outcome of one single-activity pass: the returned boolean,
whether the outer exception handler fired, how many times
garmin_service.authenticate was invoked, the paths returned by the
download and patch steps, and the paths handed to cleanup_file by the
scoped cleanup block. -/
structure SingleResult where
  success : Bool
  raised : Bool
  garminAuthCalls : Nat
  downloadedPath : Option String
  modifiedPath : Option String
  cleaned : List String
deriving DecidableEq

/-- Exit of process_latest_activity through the scoped cleanup block
(activity_processor.py lines 141-148): cleanup_file runs on whichever of
the two paths were assigned. -/
def singleReturn (success raised : Bool) (gac : Nat)
    (orig modif : Option String) : SingleResult :=
  { success := success, raised := raised, garminAuthCalls := gac,
    downloadedPath := orig, modifiedPath := modif,
    cleaned := orig.toList ++ modif.toList }

/-- Step 7 of process_latest_activity (activity_processor.py lines
122-132): upload the modified file; an upload error reaches the outer
handler. -/
def singleUpload (env : SingleEnv) (gac : Nat) (orig modif : String) : SingleResult :=
  match env.upload with
  | .error _ => singleReturn false true gac (some orig) (some modif)
  | .ok _ => singleReturn true false gac (some orig) (some modif)

/-- Steps 4-7 of process_latest_activity (activity_processor.py lines
105-132): download, patch, authenticate with the destination when not yet
authenticated, upload. Each assignment happens only when its step
succeeds; any error reaches the outer handler and the pass returns False
after cleanup. -/
def singleFromDownload (env : SingleEnv) (gAuth : Bool) (gac : Nat) : SingleResult :=
  match env.download with
  | .error _ => singleReturn false true gac none none
  | .ok orig =>
    match env.modify_device_info with
    | .error _ => singleReturn false true gac (some orig) none
    | .ok modif =>
      if gAuth then
        singleUpload env gac orig modif
      else
        match env.garminAuth with
        | .error _ => singleReturn false true (gac + 1) (some orig) (some modif)
        | .ok _ => singleUpload env (gac + 1) orig modif

/-- Step 3 duplicate handling of process_latest_activity
(activity_processor.py lines 82-101): when the activity date parsed, ask
the destination for a duplicate and return True early when one is found;
when it did not parse, continue with the upload. -/
def singleDupCheck (env : SingleEnv) (act : SourceActivity) (gAuth : Bool)
    (gac : Nat) : SingleResult :=
  match act.parsedDate with
  | some _ =>
      if env.duplicateFound then singleReturn true false gac none none
      else singleFromDownload env gAuth gac
  | none => singleFromDownload env gAuth gac

/-- process_latest_activity (activity_processor.py lines 30-148):
authenticate with the source, fetch the latest activity (None means
nothing to sync, returning False benignly), optionally authenticate with
the destination and check for a duplicate, then download, patch,
authenticate when needed, and upload; the outer handler turns any raise
into a False return, and the cleanup block runs on every exit. -/
def process_latest_activity (env : SingleEnv) (check_duplicates : Bool) : SingleResult :=
  match env.mywhooshAuth with
  | .error _ => singleReturn false true 0 none none
  | .ok _ =>
    match env.latestActivity with
    | .error _ => singleReturn false true 0 none none
    | .ok none => singleReturn false false 0 none none
    | .ok (some act) =>
      if check_duplicates then
        if env.garminAuthenticated then
          singleDupCheck env act true 0
        else
          match env.garminAuth with
          | .error _ => singleReturn false true 1 none none
          | .ok _ => singleDupCheck env act true 1
      else
        singleFromDownload env env.garminAuthenticated 0

/-- One activity of a batch pass with the outcomes of its external steps.
garminAuth is the outcome of garmin_service.authenticate when this
iteration invokes it; duplicateFound is the boolean returned by
check_duplicate_activity for this activity. -/
structure BatchActivity where
  name : String
  parsedDate : Option ℚ
  duplicateFound : Bool
  download : Except String String
  modify_device_info : Except String String
  garminAuth : Except String Unit
  upload : Except String Unit

/-- Classification of one batch iteration, matching the stats counters of
process_multiple_activities. -/
inductive Outcome where
  | synced : Outcome
  | skipped : Outcome
  | errored : Outcome
deriving DecidableEq

/-- Observable outcome of one batch iteration: its classification, the
destination authentication state after it, the paths returned by the
download and patch steps, and the paths handed to cleanup_file by its
per-iteration cleanup block. -/
structure IterResult where
  outcome : Outcome
  gAuthAfter : Bool
  downloadedPath : Option String
  modifiedPath : Option String
  cleaned : List String

/-- Exit of one batch iteration through its per-iteration cleanup block
(activity_processor.py lines 299-304). -/
def iterFinish (o : Outcome) (g : Bool) (orig modif : Option String) : IterResult :=
  { outcome := o, gAuthAfter := g, downloadedPath := orig, modifiedPath := modif,
    cleaned := orig.toList ++ modif.toList }

/-- Duplicate-skip condition of one batch iteration (activity_processor.py
lines 262-272): duplicates are consulted only when checking is enabled and
the activity date parsed. -/
def batchDupSkip (check_duplicates : Bool) (a : BatchActivity) : Bool :=
  check_duplicates && a.parsedDate.isSome && a.duplicateFound

/-- One iteration of process_multiple_activities (activity_processor.py
lines 244-309): skip a detected duplicate; otherwise download, patch,
authenticate with the destination when not yet authenticated, and upload,
any failure being caught by the inner handler and counted as an error; the
per-iteration cleanup block runs on every exit. -/
def process_one_activity (check_duplicates gAuth : Bool) (a : BatchActivity) : IterResult :=
  if batchDupSkip check_duplicates a then
    iterFinish .skipped gAuth none none
  else
    match a.download with
    | .error _ => iterFinish .errored gAuth none none
    | .ok orig =>
      match a.modify_device_info with
      | .error _ => iterFinish .errored gAuth (some orig) none
      | .ok modif =>
        if gAuth then
          match a.upload with
          | .error _ => iterFinish .errored true (some orig) (some modif)
          | .ok _ => iterFinish .synced true (some orig) (some modif)
        else
          match a.garminAuth with
          | .error _ => iterFinish .errored false (some orig) (some modif)
          | .ok _ =>
            match a.upload with
            | .error _ => iterFinish .errored true (some orig) (some modif)
            | .ok _ => iterFinish .synced true (some orig) (some modif)

/-- Sequential batch loop (activity_processor.py lines 244-309), threading
the destination authentication state from one iteration to the next; every
listed activity yields exactly one iteration result. -/
def run_iterations (check_duplicates : Bool) : Bool → List BatchActivity → List IterResult
  | _, [] => []
  | g, a :: rest =>
      let r := process_one_activity check_duplicates g a
      r :: run_iterations check_duplicates r.gAuthAfter rest

/-- The stats dictionary of process_multiple_activities. -/
structure BatchStats where
  total : Nat
  synced : Nat
  skipped : Nat
  errors : Nat
deriving DecidableEq

/-- Initial stats (activity_processor.py lines 212-217). -/
def emptyStats : BatchStats := { total := 0, synced := 0, skipped := 0, errors := 0 }

/-- One iteration increments total and exactly one of the three outcome
counters (activity_processor.py lines 247, 271, 293, 297, 308). -/
def addOutcome (s : BatchStats) (o : Outcome) : BatchStats :=
  match o with
  | .synced => { s with total := s.total + 1, synced := s.synced + 1 }
  | .skipped => { s with total := s.total + 1, skipped := s.skipped + 1 }
  | .errored => { s with total := s.total + 1, errors := s.errors + 1 }

/-- Stats accumulated over a list of iteration results. -/
def statsOf : List IterResult → BatchStats
  | [] => emptyStats
  | r :: rest => addOutcome (statsOf rest) r.outcome

/-- Environment of one batch pass: outcomes of the up-front source and
destination authentications and of the activities listing. -/
structure BatchEnv where
  mywhooshAuth : Except String Unit
  garminAuth : Except String Unit
  activities : Except String (List BatchActivity)

/-- process_multiple_activities (activity_processor.py lines 198-328):
authenticate with the source, with the destination when duplicate checking
is enabled, list the activities; any of these failing reaches the outer
handler, which returns the zero stats; an empty listing also returns the
zero stats; otherwise the listing is truncated to the limit and processed
sequentially. The initial destination authentication state is exactly
check_duplicates, since reaching the loop with checking enabled means the
up-front destination authentication succeeded. -/
def process_multiple_activities (env : BatchEnv) (limit : Nat)
    (check_duplicates : Bool) : BatchStats :=
  match env.mywhooshAuth with
  | .error _ => emptyStats
  | .ok _ =>
    match (if check_duplicates then env.garminAuth else .ok ()) with
    | .error _ => emptyStats
    | .ok _ =>
      match env.activities with
      | .error _ => emptyStats
      | .ok acts =>
        if acts.isEmpty then emptyStats
        else statsOf (run_iterations check_duplicates check_duplicates (acts.take limit))

end ActivityProcessor

namespace MyWhooshService

/-- Environment in which every listing request is answered 401 and every
re-authentication succeeds with a fresh token. -/
def mwEnvAll401 : MWEnv Nat :=
  { respond := fun _ _ => .unauthorized, authResult := fun n => .ok (n + 101) }

/-- Environment in which the first listing request is answered 401, the
re-authentication issues token 7, and the follow-up request succeeds. -/
def mwEnvStaleThenOk : MWEnv Nat :=
  { respond := fun p t => if p.sortDate = "ASC" ∧ t = 7 then .ok (.flatList [42]) else .unauthorized,
    authResult := fun _ => .ok 7 }

end MyWhooshService

namespace ActivityProcessor

/-- A source activity whose date field did not parse. -/
def srcActPlain : SourceActivity := { name := "Morning Ride", parsedDate := none }

/-- Single-pass environment in which every step succeeds. -/
def envSingleOk : SingleEnv :=
  { mywhooshAuth := .ok (), latestActivity := .ok (some srcActPlain),
    garminAuthenticated := false, garminAuth := .ok (), duplicateFound := false,
    download := .ok "orig.fit", modify_device_info := .ok "mod.fit", upload := .ok () }

/-- Single-pass environment in which the source listing is empty. -/
def envSingleNoActs : SingleEnv :=
  { mywhooshAuth := .ok (), latestActivity := .ok none,
    garminAuthenticated := false, garminAuth := .ok (), duplicateFound := false,
    download := .ok "orig.fit", modify_device_info := .ok "mod.fit", upload := .ok () }

/-- A batch activity whose steps all succeed. -/
def actBatchOk : BatchActivity :=
  { name := "Ride A", parsedDate := none, duplicateFound := false,
    download := .ok "a.fit", modify_device_info := .ok "a-mod.fit",
    garminAuth := .ok (), upload := .ok () }

/-- A batch activity whose download step raises. -/
def actBatchFail : BatchActivity :=
  { name := "Ride B", parsedDate := none, duplicateFound := false,
    download := .error "download failed", modify_device_info := .ok "b-mod.fit",
    garminAuth := .ok (), upload := .ok () }

/-- A batch activity detected as a duplicate. -/
def actBatchDup : BatchActivity :=
  { name := "Ride C", parsedDate := some 5, duplicateFound := true,
    download := .ok "c.fit", modify_device_info := .ok "c-mod.fit",
    garminAuth := .ok (), upload := .ok () }

/-- Batch environment listing a succeeding, a failing and another
succeeding activity. -/
def envBatchFail : BatchEnv :=
  { mywhooshAuth := .ok (), garminAuth := .ok (),
    activities := .ok [actBatchOk, actBatchFail, actBatchOk] }

/-- Batch environment mixing a success, a duplicate skip and a failure. -/
def envBatchMixed : BatchEnv :=
  { mywhooshAuth := .ok (), garminAuth := .ok (),
    activities := .ok [actBatchOk, actBatchDup, actBatchFail] }

end ActivityProcessor

/-! Helper lemmas. -/

theorem pyAbs_eq_abs (q : ℚ) : pyAbs q = |q| := by
  unfold pyAbs
  rcases lt_or_le q 0 with h | h
  · rw [if_pos h, abs_of_neg h]
  · rw [if_neg (not_lt.mpr h), abs_of_nonneg h]

/-- The time window condition of the duplicate check, multiplied out over
the integers. -/
theorem time_window_iff (a w : Int) :
    (pyAbs ((a : ℚ) / 3600) ≤ (w : ℚ)) ↔ (-(3600 * w) ≤ a ∧ a ≤ 3600 * w) := by
  rw [pyAbs_eq_abs, abs_div]
  have h36 : |(3600 : ℚ)| = 3600 := by norm_num
  rw [h36, div_le_iff₀ (by norm_num : (0 : ℚ) < 3600)]
  rw [← Int.cast_abs]
  have hcast : (w : ℚ) * 3600 = ((w * 3600 : Int) : ℚ) := by push_cast; ring
  rw [hcast, Int.cast_le, abs_le]
  constructor
  · rintro ⟨h1, h2⟩
    exact ⟨by linarith, by linarith⟩
  · rintro ⟨h1, h2⟩
    exact ⟨by linarith, by linarith⟩

namespace GarminService

/-- Both forms of the candidate scan agree. -/
theorem check_duplicate_candidates_eq_c (d : Int) (n : Option String) (w : Int) :
    ∀ l : List GarminActivity,
      check_duplicate_candidates d n w l = check_duplicate_candidates_c d n w l := by
  intro l
  induction l with
  | nil => rfl
  | cons a rest ih =>
    cases h : a.start with
    | missing =>
        simp only [check_duplicate_candidates, check_duplicate_candidates_c, h, ih]
    | malformed =>
        simp only [check_duplicate_candidates, check_duplicate_candidates_c, h, ih]
    | parsed s =>
        simp only [check_duplicate_candidates, check_duplicate_candidates_c, h]
        by_cases hP : pyAbs (((s - d : Int) : ℚ) / 3600) ≤ (w : ℚ)
        · have hQ := (time_window_iff (s - d) w).mp hP
          rw [if_pos hP, if_pos hQ]
          cases pyTruthyName n with
          | none => rfl
          | some nm => simp only [ih]
        · have hQ : ¬(-(3600 * w) ≤ s - d ∧ s - d ≤ 3600 * w) :=
            fun hc => hP ((time_window_iff (s - d) w).mpr hc)
          rw [if_neg hP, if_neg hQ]
          exact ih

end GarminService

namespace ActivityProcessor

/-- Each iteration contributes one to total and one outcome counter, so the
counters always sum to the total. -/
theorem statsOf_sum (rs : List IterResult) :
    (statsOf rs).total = (statsOf rs).synced + (statsOf rs).skipped + (statsOf rs).errors := by
  induction rs with
  | nil => rfl
  | cons r rest ih =>
      cases h : r.outcome <;> simp only [statsOf, addOutcome, h] <;> omega

/-- The total counts exactly the processed iterations. -/
theorem statsOf_total (rs : List IterResult) : (statsOf rs).total = rs.length := by
  induction rs with
  | nil => rfl
  | cons r rest ih =>
      cases h : r.outcome <;> simp only [statsOf, addOutcome, h, List.length_cons] <;> omega

/-- The error counter counts exactly the iterations classified as errors. -/
theorem statsOf_errors (rs : List IterResult) :
    (statsOf rs).errors
      = (rs.filter (fun r => decide (r.outcome = Outcome.errored))).length := by
  induction rs with
  | nil => rfl
  | cons r rest ih =>
      cases h : r.outcome <;>
        simp only [statsOf, addOutcome, h, List.filter_cons] <;>
        simp [h, ih]

/-- Every listed activity yields exactly one iteration result. -/
theorem run_iterations_length (cd : Bool) :
    ∀ (g : Bool) (l : List BatchActivity), (run_iterations cd g l).length = l.length := by
  intro g l
  induction l generalizing g with
  | nil => rfl
  | cons a rest ih => simp only [run_iterations, List.length_cons, ih]

/-- Cleanup invariant of a single-pass exit point. -/
theorem singleReturn_cleans (s r : Bool) (g : Nat) (o m : Option String) :
    (∀ p, (singleReturn s r g o m).downloadedPath = some p →
        p ∈ (singleReturn s r g o m).cleaned)
      ∧ (∀ p, (singleReturn s r g o m).modifiedPath = some p →
        p ∈ (singleReturn s r g o m).cleaned) := by
  constructor
  · intro p hp
    simp only [singleReturn] at hp ⊢
    subst hp
    simp
  · intro p hp
    simp only [singleReturn] at hp ⊢
    subst hp
    simp

/-- Cleanup invariant of a batch-iteration exit point. -/
theorem iterFinish_cleans (o : Outcome) (g : Bool) (orig modif : Option String) :
    (∀ p, (iterFinish o g orig modif).downloadedPath = some p →
        p ∈ (iterFinish o g orig modif).cleaned)
      ∧ (∀ p, (iterFinish o g orig modif).modifiedPath = some p →
        p ∈ (iterFinish o g orig modif).cleaned) := by
  constructor
  · intro p hp
    simp only [iterFinish] at hp ⊢
    subst hp
    simp
  · intro p hp
    simp only [iterFinish] at hp ⊢
    subst hp
    simp

/-- Every exit of the single pass goes through singleReturn. -/
theorem process_latest_activity_is_return (env : SingleEnv) (cd : Bool) :
    ∃ s r g o m, process_latest_activity env cd = singleReturn s r g o m := by
  unfold process_latest_activity singleDupCheck singleFromDownload singleUpload
  repeat' split
  all_goals exact ⟨_, _, _, _, _, rfl⟩

/-- Every exit of a batch iteration goes through iterFinish. -/
theorem process_one_activity_is_finish (cd g : Bool) (a : BatchActivity) :
    ∃ o ga orig modif, process_one_activity cd g a = iterFinish o ga orig modif := by
  unfold process_one_activity
  repeat' split
  all_goals exact ⟨_, _, _, _, rfl⟩

end ActivityProcessor

namespace MyWhooshService

/-- The strategy loop re-authenticates at most once per remaining payload
strategy. -/
theorem reauth_count_loop {α : Type} (env : MWEnv α) :
    ∀ (ps : List MWPayload) (tok ac : Nat) (events : List MWEvent) (le : Option String),
      ((get_activities_loop env ps tok ac events le).events.filter isReauthEvent).length
        ≤ (events.filter isReauthEvent).length + ps.length := by
  intro ps
  induction ps with
  | nil => intro tok ac events le; simp [get_activities_loop]
  | cons p rest ih =>
      intro tok ac events le
      simp only [get_activities_loop]
      cases env.respond p tok with
      | ok body =>
          simp [isReauthEvent, List.filter_append]
      | unauthorized =>
          cases env.authResult ac with
          | ok newTok =>
              refine le_trans (ih newTok (ac + 1) (events ++ [.request p tok, .reauth true]) le) ?_
              simp only [List.filter_append, List.length_append]
              simp [isReauthEvent]
              omega
          | error e =>
              refine le_trans (ih tok (ac + 1) (events ++ [.request p tok, .reauth false]) (some e)) ?_
              simp only [List.filter_append, List.length_append]
              simp [isReauthEvent]
              omega
      | httpError code text =>
          refine le_trans (ih tok ac (events ++ [.request p tok]) (some ("HTTP " ++ toString code ++ ": " ++ text))) ?_
          simp [List.filter_append, isReauthEvent]
      | netError msg =>
          refine le_trans (ih tok ac (events ++ [.request p tok]) (some msg)) ?_
          simp [List.filter_append, isReauthEvent]

end MyWhooshService

/-! Claim theorems. -/

namespace GarminService

/-- C1: for an authenticated duplicate check with timestamp t, optional
name n and window w hours (default 2), a same-day candidate whose start
time differs from t by at most w hours is a duplicate immediately when n
is omitted; when n is supplied, that candidate is a duplicate exactly when
one of the two names is a case-insensitive substring of the other, and on
a name mismatch scanning continues with the next candidate; in particular
the scenario t = 2024-03-01T08:00:00, candidate at 2024-03-01T09:30:00
named Morning Ride, source name Morning Ride Indoor yields
duplicate=true. -/
theorem check_duplicate_time_and_name_semantics :
    (∀ (d s w : Int) (nm : Option String) (rest : List GarminActivity),
        pyAbs (((s - d : Int) : ℚ) / 3600) ≤ (w : ℚ) →
        check_duplicate_candidates d none w
          ({ start := .parsed s, activityName := nm } :: rest) = true)
    ∧ (∀ (d s w : Int) (n : String) (nm : Option String) (rest : List GarminActivity),
        n ≠ "" →
        pyAbs (((s - d : Int) : ℚ) / 3600) ≤ (w : ℚ) →
        check_duplicate_candidates d (some n) w
          ({ start := .parsed s, activityName := nm } :: rest)
          = (if strIn (toLowerStr n) (toLowerStr (nm.getD ""))
                || strIn (toLowerStr (nm.getD "")) (toLowerStr n)
             then true
             else check_duplicate_candidates d (some n) w rest))
    ∧ (check_duplicate_activity true 1709280000 (some "Morning Ride Indoor") 2
        (.ok [{ start := .parsed 1709285400, activityName := some "Morning Ride" }])).result
        = .ok true := by
  refine ⟨?_, ?_, ?_⟩
  · intro d s w nm rest h
    simp only [check_duplicate_candidates]
    rw [if_pos h]
    rfl
  · intro d s w n nm rest hn h
    simp only [check_duplicate_candidates]
    rw [if_pos h]
    have hname : pyTruthyName (some n) = some n := by simp [pyTruthyName, hn]
    rw [hname]
  · show Except.ok (check_duplicate_candidates 1709280000 (some "Morning Ride Indoor") 2
        [{ start := .parsed 1709285400, activityName := some "Morning Ride" }]) = .ok true
    rw [check_duplicate_candidates_eq_c]
    exact congrArg Except.ok (by decide)

/-- Witness for C1 applied at concrete inputs: a time match with no name
is a duplicate at once; a time match with a name mismatch falls through to
the rest of the scan; the spec scenario yields a duplicate. -/
theorem check_duplicate_time_and_name_semantics_witness :
    check_duplicate_candidates 0 none 2
        [{ start := .parsed 3600, activityName := none }] = true
      ∧ check_duplicate_candidates 0 (some "Trail Run") 2
          [{ start := .parsed 3600, activityName := some "Morning Ride" }] = false
      ∧ (check_duplicate_activity true 1709280000 (some "Morning Ride Indoor") 2
          (.ok [{ start := .parsed 1709285400, activityName := some "Morning Ride" }])).result
          = .ok true :=
  ⟨check_duplicate_time_and_name_semantics.1 0 3600 2 none []
      ((time_window_iff (3600 - 0) 2).mpr (by decide)),
   (check_duplicate_time_and_name_semantics.2.1 0 3600 2 "Trail Run" (some "Morning Ride") []
      (by decide) ((time_window_iff (3600 - 0) 2).mpr (by decide))).trans (by decide),
   check_duplicate_time_and_name_semantics.2.2⟩

/-- C3: once authenticated, check_duplicate_activity never propagates an
error: a failing remote listing yields the False result, and a candidate
whose evaluation raises is skipped, the scan continuing with the remaining
candidates. -/
theorem check_duplicate_never_raises_when_authenticated :
    (∀ (d w : Int) (n : Option String) (listing : Except String (List GarminActivity)),
        isOkE (check_duplicate_activity true d n w listing).result = true)
    ∧ (∀ (d w : Int) (n : Option String) (e : String),
        (check_duplicate_activity true d n w (.error e)).result = .ok false)
    ∧ (∀ (d w : Int) (n nm : Option String) (rest : List GarminActivity),
        check_duplicate_candidates d n w
            ({ start := .malformed, activityName := nm } :: rest)
          = check_duplicate_candidates d n w rest) := by
  refine ⟨?_, ?_, ?_⟩
  · intro d w n listing
    cases listing <;> simp [check_duplicate_activity, isOkE]
  · intro d w n e
    simp [check_duplicate_activity]
  · intro d w n nm rest
    simp only [check_duplicate_candidates]

/-- C9: calling check_duplicate_activity without prior successful
authentication raises a state error before the remote query is made; the
never-raises guarantee holds under the authenticated precondition. -/
theorem check_duplicate_requires_authentication :
    (∀ (d w : Int) (n : Option String) (listing : Except String (List GarminActivity)),
        (check_duplicate_activity false d n w listing).result
            = .error "Must authenticate before checking activities"
          ∧ (check_duplicate_activity false d n w listing).queriedRemote = false)
    ∧ (∀ (d w : Int) (n : Option String) (listing : Except String (List GarminActivity)),
        isOkE (check_duplicate_activity true d n w listing).result = true) := by
  constructor
  · intro d w n listing
    exact ⟨rfl, rfl⟩
  · intro d w n listing
    cases listing <;> simp [check_duplicate_activity, isOkE]

end GarminService

namespace ActivityProcessor

/-- C5: the timestamp normalizer keeps a numeric raw timestamp at or below
100 billion as Unix seconds unchanged, and divides a value above 100
billion by 1000 before interpreting it as seconds. -/
theorem numeric_timestamp_threshold :
    ∀ v : ℚ, (v ≤ 100000000000 → parse_activity_date_numeric v = v)
      ∧ (100000000000 < v → parse_activity_date_numeric v = v / 1000) := by
  intro v
  constructor
  · intro h
    simp [parse_activity_date_numeric, not_lt.mpr h]
  · intro h
    simp [parse_activity_date_numeric, h]

/-- Witness for C5 at concrete inputs on both sides of the threshold. -/
theorem numeric_timestamp_threshold_witness :
    parse_activity_date_numeric 1709280000 = 1709280000
      ∧ parse_activity_date_numeric 200000000000 = 200000000000 / 1000 :=
  ⟨(numeric_timestamp_threshold 1709280000).1 (by decide),
   (numeric_timestamp_threshold 200000000000).2 (by decide)⟩

end ActivityProcessor

namespace MyWhooshService

/-- C8: the download finalization always returns the file path, and a
header whose magic bytes at offset 8-11 differ from the FIT marker only
produces a warning, the path still being returned. -/
theorem magic_mismatch_still_returns_path :
    (∀ (content : List Nat) (path : String), (finalize_download content path).path = path)
    ∧ (∀ (content : List Nat) (path : String),
        ((content.take 14).drop 8).take 4 ≠ fitMagic →
        finalize_download content path = { path := path, headerWarning := true }) := by
  constructor
  · intro content path
    simp only [finalize_download]
    repeat' split
    all_goals rfl
  · intro content path h
    by_cases hm : (List.take 14 content).length ≥ 12
    · simp only [finalize_download]
      rw [if_pos hm, if_neg h]
    · simp only [finalize_download]
      rw [if_neg hm]

/-- Witness for C8: an empty transfer has no FIT magic, is flagged with a
warning and still yields the path. -/
theorem magic_mismatch_still_returns_path_witness :
    finalize_download [] "scratch.fit" = { path := "scratch.fit", headerWarning := true } :=
  magic_mismatch_still_returns_path.2 [] "scratch.fit" (by decide)

end MyWhooshService

namespace ActivityProcessor

/-- C7: when the source listing returns zero activities, the single pass
returns False benignly (the outer exception handler does not fire) and
never invokes authentication against the destination platform. -/
theorem no_activity_skips_garmin_auth :
    ∀ (env : SingleEnv) (cd : Bool),
      env.mywhooshAuth = .ok () →
      env.latestActivity = .ok (get_latest_activity []) →
      (process_latest_activity env cd).success = false
        ∧ (process_latest_activity env cd).raised = false
        ∧ (process_latest_activity env cd).garminAuthCalls = 0 := by
  intro env cd h1 h2
  have h2e : env.latestActivity = .ok none := h2
  simp [process_latest_activity, h1, h2e, singleReturn]

/-- Witness for C7 at a concrete environment with an empty listing. -/
theorem no_activity_skips_garmin_auth_witness :
    (process_latest_activity envSingleNoActs true).success = false
      ∧ (process_latest_activity envSingleNoActs true).raised = false
      ∧ (process_latest_activity envSingleNoActs true).garminAuthCalls = 0 :=
  no_activity_skips_garmin_auth envSingleNoActs true rfl rfl

/-- C2: every temporary file path returned by the download or patch step
is handed to cleanup before the pass returns, on every exit path of the
single pass and of each batch iteration. -/
theorem temp_files_cleaned_on_every_exit :
    (∀ (env : SingleEnv) (cd : Bool) (p : String),
        ((process_latest_activity env cd).downloadedPath = some p →
            p ∈ (process_latest_activity env cd).cleaned)
          ∧ ((process_latest_activity env cd).modifiedPath = some p →
            p ∈ (process_latest_activity env cd).cleaned))
    ∧ (∀ (cd g : Bool) (a : BatchActivity) (p : String),
        ((process_one_activity cd g a).downloadedPath = some p →
            p ∈ (process_one_activity cd g a).cleaned)
          ∧ ((process_one_activity cd g a).modifiedPath = some p →
            p ∈ (process_one_activity cd g a).cleaned)) := by
  constructor
  · intro env cd p
    obtain ⟨s, r, g, o, m, he⟩ := process_latest_activity_is_return env cd
    rw [he]
    exact ⟨(singleReturn_cleans s r g o m).1 p, (singleReturn_cleans s r g o m).2 p⟩
  · intro cd g a p
    obtain ⟨o2, ga, orig, modif, he⟩ := process_one_activity_is_finish cd g a
    rw [he]
    exact ⟨(iterFinish_cleans o2 ga orig modif).1 p, (iterFinish_cleans o2 ga orig modif).2 p⟩

/-- Witness for C2: in a fully succeeding single pass both returned paths
are cleaned, and in a succeeding batch iteration the downloaded path is
cleaned. -/
theorem temp_files_cleaned_on_every_exit_witness :
    "orig.fit" ∈ (process_latest_activity envSingleOk true).cleaned
      ∧ "mod.fit" ∈ (process_latest_activity envSingleOk true).cleaned
      ∧ "a.fit" ∈ (process_one_activity false false actBatchOk).cleaned :=
  ⟨(temp_files_cleaned_on_every_exit.1 envSingleOk true "orig.fit").1 (by decide),
   (temp_files_cleaned_on_every_exit.1 envSingleOk true "mod.fit").2 (by decide),
   (temp_files_cleaned_on_every_exit.2 false false actBatchOk "a.fit").1 (by decide)⟩

/-- C10: the stats returned by batch processing always satisfy
total = synced + skipped + errors, and total never exceeds the minimum of
the limit and the number of listed activities, on every return path
including an aborted batch. -/
theorem batch_stats_totals :
    ∀ (env : BatchEnv) (limit : Nat) (cd : Bool),
      (process_multiple_activities env limit cd).total
          = (process_multiple_activities env limit cd).synced
            + (process_multiple_activities env limit cd).skipped
            + (process_multiple_activities env limit cd).errors
        ∧ (∀ acts : List BatchActivity, env.activities = .ok acts →
            (process_multiple_activities env limit cd).total ≤ min limit acts.length) := by
  intro env limit cd
  have key : process_multiple_activities env limit cd = emptyStats
      ∨ ∃ acts, env.activities = .ok acts
          ∧ process_multiple_activities env limit cd
              = statsOf (run_iterations cd cd (acts.take limit)) := by
    unfold process_multiple_activities
    split
    · exact .inl rfl
    · split
      · exact .inl rfl
      · split
        · exact .inl rfl
        · split
          · exact .inl rfl
          · exact .inr ⟨_, by assumption, rfl⟩
  rcases key with hk | ⟨acts0, ha0, hk⟩
  · rw [hk]
    exact ⟨rfl, fun acts ha => Nat.zero_le _⟩
  · rw [hk]
    refine ⟨statsOf_sum _, ?_⟩
    intro acts ha
    have : acts0 = acts := by
      rw [ha0] at ha
      exact (Except.ok.injEq _ _).mp ha
    subst this
    rw [statsOf_total, run_iterations_length, List.length_take]

/-- Witness for C10 at a concrete mixed batch environment. -/
theorem batch_stats_totals_witness :
    ((process_multiple_activities envBatchMixed 10 true).total
        = (process_multiple_activities envBatchMixed 10 true).synced
          + (process_multiple_activities envBatchMixed 10 true).skipped
          + (process_multiple_activities envBatchMixed 10 true).errors)
      ∧ (process_multiple_activities envBatchMixed 10 true).total
          ≤ min 10 [actBatchOk, actBatchDup, actBatchFail].length :=
  ⟨(batch_stats_totals envBatchMixed 10 true).1,
   (batch_stats_totals envBatchMixed 10 true).2 [actBatchOk, actBatchDup, actBatchFail] rfl⟩

/-- C4: when batch processing reaches the loop over N listed activities
(N bounded by the limit), the stats are exactly those accumulated over one
iteration per activity, so total equals N, the error counter counts the
iterations classified as errors, and an activity whose download, patch or
upload step raises is classified as an error while the remaining
activities still contribute their own iterations. -/
theorem batch_error_isolation :
    ∀ (env : BatchEnv) (limit : Nat) (cd : Bool) (acts : List BatchActivity),
      env.mywhooshAuth = .ok () →
      (cd = true → env.garminAuth = .ok ()) →
      env.activities = .ok acts →
      acts ≠ [] →
      (process_multiple_activities env limit cd
          = statsOf (run_iterations cd cd (acts.take limit)))
        ∧ (run_iterations cd cd (acts.take limit)).length = (acts.take limit).length
        ∧ (process_multiple_activities env limit cd).total = (acts.take limit).length
        ∧ (process_multiple_activities env limit cd).errors
            = ((run_iterations cd cd (acts.take limit)).filter
                (fun r => decide (r.outcome = Outcome.errored))).length
        ∧ (∀ (g : Bool) (a : BatchActivity),
            batchDupSkip cd a = false →
              (isErrE a.download = true → (process_one_activity cd g a).outcome = .errored)
              ∧ (∀ q, a.download = .ok q → isErrE a.modify_device_info = true →
                  (process_one_activity cd g a).outcome = .errored)
              ∧ (∀ q q2, a.download = .ok q → a.modify_device_info = .ok q2 →
                  (g = true ∨ a.garminAuth = .ok ()) → isErrE a.upload = true →
                  (process_one_activity cd g a).outcome = .errored)) := by
  intro env limit cd acts h1 h2 h3 h4
  have hne : acts.isEmpty = false := by
    cases acts with
    | nil => exact absurd rfl h4
    | cons a t => rfl
  have hrun : process_multiple_activities env limit cd
      = statsOf (run_iterations cd cd (acts.take limit)) := by
    cases cd with
    | false => simp [process_multiple_activities, h1, h3, hne]
    | true => simp [process_multiple_activities, h1, h2 rfl, h3, hne]
  refine ⟨hrun, run_iterations_length cd cd (acts.take limit), ?_, ?_, ?_⟩
  · rw [hrun, statsOf_total, run_iterations_length]
  · rw [hrun, statsOf_errors]
  · intro g a hskip
    refine ⟨?_, ?_, ?_⟩
    · intro hderr
      cases hd : a.download with
      | ok q => rw [hd] at hderr; exact absurd hderr (by simp [isErrE])
      | error e => simp [process_one_activity, hskip, hd, iterFinish]
    · intro q hd hmerr
      cases hm : a.modify_device_info with
      | ok q2 => rw [hm] at hmerr; exact absurd hmerr (by simp [isErrE])
      | error e => simp [process_one_activity, hskip, hd, hm, iterFinish]
    · intro q q2 hd hm hauth huerr
      cases hu : a.upload with
      | ok u => rw [hu] at huerr; exact absurd huerr (by simp [isErrE])
      | error e =>
          cases g with
          | true => simp [process_one_activity, hskip, hd, hm, hu, iterFinish]
          | false =>
              rcases hauth with hg | hga
              · exact absurd hg (by simp)
              · simp [process_one_activity, hskip, hd, hm, hga, hu, iterFinish]

/-- Witness for C4: a batch of three activities whose second download
raises yields total 3, two synced and one error. -/
theorem batch_error_isolation_witness :
    process_multiple_activities envBatchFail 10 false
      = { total := 3, synced := 2, skipped := 0, errors := 1 } :=
  ((batch_error_isolation envBatchFail 10 false [actBatchOk, actBatchFail, actBatchOk]
      rfl (fun _ => rfl) rfl (List.cons_ne_nil _ _)).1).trans (by decide)

end ActivityProcessor

namespace MyWhooshService

/-- C6 counterexample: in an environment in which every listing request is
answered 401 and re-authentication always succeeds, the client does not
retry the same payload after the first stale-token response: the follow-up
request carries the next payload strategy (sortDate ASC instead of DESC),
and re-authentication happens twice, not exactly once. -/
theorem stale_token_retry_counterexample :
    (get_activities mwEnvAll401 10 0).events
        = [.request { page := 1, limit := 10, sortDate := "DESC" } 0, .reauth true,
           .request { page := 1, limit := 10, sortDate := "ASC" } 101, .reauth true]
      ∧ ({ page := 1, limit := 10, sortDate := "DESC" } : MWPayload)
          ≠ { page := 1, limit := 10, sortDate := "ASC" }
      ∧ ((get_activities mwEnvAll401 10 0).events.filter isReauthEvent).length = 2 := by
  refine ⟨by decide, by decide, by decide⟩

/-- C6 amended: on a stale-token (401) response to the first payload
strategy the client re-authenticates and re-sends the request with the
refreshed token but the next payload strategy (not the same payload); a
stale-token response on the last strategy leads to re-authentication
followed by giving up with an error, and re-authentication happens at most
once per strategy, hence at most twice per call. -/
theorem stale_token_reauth_next_strategy :
    (∀ {α : Type} (env : MWEnv α) (limit tok newTok : Nat),
        env.respond { page := 1, limit := limit, sortDate := "DESC" } tok = .unauthorized →
        env.authResult 0 = .ok newTok →
        (get_activities env limit tok).events.take 3
            = [.request { page := 1, limit := limit, sortDate := "DESC" } tok, .reauth true,
               .request { page := 1, limit := limit, sortDate := "ASC" } newTok]
          ∧ (env.respond { page := 1, limit := limit, sortDate := "ASC" } newTok
                = .unauthorized →
              isErrE (get_activities env limit tok).result = true))
    ∧ (∀ {α : Type} (env : MWEnv α) (limit tok : Nat),
        ((get_activities env limit tok).events.filter isReauthEvent).length ≤ 2) := by
  constructor
  · intro α env limit tok newTok h1 h2
    constructor
    · unfold get_activities payloads_to_try
      simp only [get_activities_loop, h1, h2, List.nil_append]
      cases hr : env.respond { page := 1, limit := limit, sortDate := "ASC" } newTok with
      | ok body => simp [get_activities_loop, hr]
      | unauthorized =>
          cases ha : env.authResult 1 with
          | ok t2 => simp [get_activities_loop, hr, ha]
          | error e => simp [get_activities_loop, hr, ha]
      | httpError code text => simp [get_activities_loop, hr]
      | netError msg => simp [get_activities_loop, hr]
    · intro h3
      unfold get_activities payloads_to_try
      simp only [get_activities_loop, h1, h2, h3, List.nil_append]
      cases ha : env.authResult 1 with
      | ok t2 => simp [get_activities_loop, ha, isErrE]
      | error e => simp [get_activities_loop, ha, isErrE]
  · intro α env limit tok
    have h := reauth_count_loop env (payloads_to_try limit) tok 0 [] none
    simpa [payloads_to_try] using h

/-- Witness for the amended C6 at a concrete environment in which the
first request is answered 401 and the follow-up with the refreshed token
succeeds. -/
theorem stale_token_reauth_next_strategy_witness :
    (get_activities mwEnvStaleThenOk 10 0).events.take 3
        = [.request { page := 1, limit := 10, sortDate := "DESC" } 0, .reauth true,
           .request { page := 1, limit := 10, sortDate := "ASC" } 7] :=
  (stale_token_reauth_next_strategy.1 mwEnvStaleThenOk 10 0 7 rfl rfl).1

end MyWhooshService
